import Mathlib

/-!
# Verification of the `flower_pot` ANSI escape-code catalogue

A shallow embedding of `src/src/lib.rs`: the crate's named string constants
(each a complete ANSI SGR escape sequence) and its four formatting functions
`color_256`, `color_256_bg`, `truecolor`, `truecolor_bg`, which build the
parameterized palette / truecolor sequences with Rust's `format!` macro
(decimal rendering of each `u8` argument).

Rust `u8` values are modelled as `Nat` with the hypothesis `n ≤ 255` where a
claim quantifies over the `u8` domain; Rust's `format!("{n}")` for `u8` is the
plain decimal rendering, modelled by `Nat.repr`.
-/

namespace FlowerPot

/-! ## The constant catalogue (styles 0-29, from lib.rs) -/

def RESET : String := "\x1b[0m"

def BOLD : String := "\x1b[1m"

def DIM : String := "\x1b[2m"

def ITALIC : String := "\x1b[3m"

def UNDERLINE : String := "\x1b[4m"

def SLOW_BLINK : String := "\x1b[5m"

def RAPID_BLINK : String := "\x1b[6m"

def INVERTED : String := "\x1b[7m"

def HIDDEN : String := "\x1b[8m"

def STRIKETHROUGH : String := "\x1b[9m"

def DEFAULT_FONT : String := "\x1b[10m"

def ALT_FONT_1 : String := "\x1b[11m"

def ALT_FONT_2 : String := "\x1b[12m"

def ALT_FONT_3 : String := "\x1b[13m"

def ALT_FONT_4 : String := "\x1b[14m"

def ALT_FONT_5 : String := "\x1b[15m"

def ALT_FONT_6 : String := "\x1b[16m"

def ALT_FONT_7 : String := "\x1b[17m"

def ALT_FONT_8 : String := "\x1b[18m"

def ALT_FONT_9 : String := "\x1b[19m"

def FRAKTUR : String := "\x1b[20m"

def DOUBLE_UNDERLINE : String := "\x1b[21m"

def NOT_BOLD : String := "\x1b[21m"

def NORMAL_INTENSITY : String := "\x1b[22m"

def NEITHER_BOLD_NOR_ITALIC : String := "\x1b[23m"

def NOT_UNDERLINED : String := "\x1b[24m"

def NOT_BLINKING : String := "\x1b[25m"

def PROPORTIONAL_SPACING : String := "\x1b[26m"

def NOT_INVERTED : String := "\x1b[27m"

def NOT_HIDDEN : String := "\x1b[28m"

def NOT_STRIKETHROUGH : String := "\x1b[29m"

/-! ## Standard foreground colors 30-37 -/

def BLACK : String := "\x1b[30m"

def RED : String := "\x1b[31m"

def GREEN : String := "\x1b[32m"

def YELLOW : String := "\x1b[33m"

def BLUE : String := "\x1b[34m"

def MAGENTA : String := "\x1b[35m"

def CYAN : String := "\x1b[36m"

def WHITE : String := "\x1b[37m"

/-- `pub fn color_256(n: u8) -> String { format!("\x1b[38;5;{n}m") }` -/
def color_256 (n : Nat) : String :=
  "\x1b[38;5;" ++ Nat.repr n ++ "m"

/-- `pub fn truecolor(r: u8, g: u8, b: u8) -> String { format!("\x1b[38;2;{r};{g};{b}m") }` -/
def truecolor (r g b : Nat) : String :=
  "\x1b[38;2;" ++ Nat.repr r ++ ";" ++ Nat.repr g ++ ";" ++ Nat.repr b ++ "m"

def DEFAULT : String := "\x1b[39m"

/-! ## Standard background colors 40-47 -/

def BLACK_BG : String := "\x1b[40m"

def RED_BG : String := "\x1b[41m"

def GREEN_BG : String := "\x1b[42m"

def YELLOW_BG : String := "\x1b[43m"

def BLUE_BG : String := "\x1b[44m"

def MAGENTA_BG : String := "\x1b[45m"

def CYAN_BG : String := "\x1b[46m"

def WHITE_BG : String := "\x1b[47m"

/-- `pub fn color_256_bg(n: u8) -> String { format!("\x1b[48;5;{n}m") }` -/
def color_256_bg (n : Nat) : String :=
  "\x1b[48;5;" ++ Nat.repr n ++ "m"

/-- `pub fn truecolor_bg(r: u8, g: u8, b: u8) -> String { format!("\x1b[48;2;{r};{g};{b}m") }` -/
def truecolor_bg (r g b : Nat) : String :=
  "\x1b[48;2;" ++ Nat.repr r ++ ";" ++ Nat.repr g ++ ";" ++ Nat.repr b ++ "m"

def DEFAULT_BG : String := "\x1b[49m"

/-! ## Styles 50-55 -/

def NO_PROPORTIONAL_SPACING : String := "\x1b[50m"

def FRAMED : String := "\x1b[51m"

def ENCIRCLED : String := "\x1b[52m"

def OVERLINE : String := "\x1b[53m"

def NEITHER_FRAMED_NOR_ENCIRCLED : String := "\x1b[54m"

def NOT_OVERLINED : String := "\x1b[55m"

/-! ## Bright foreground colors 90-97 -/

def BRIGHT_BLACK : String := "\x1b[90m"

def BRIGHT_RED : String := "\x1b[91m"

def BRIGHT_GREEN : String := "\x1b[92m"

def BRIGHT_YELLOW : String := "\x1b[93m"

def BRIGHT_BLUE : String := "\x1b[94m"

def BRIGHT_MAGENTA : String := "\x1b[95m"

def BRIGHT_CYAN : String := "\x1b[96m"

def BRIGHT_WHITE : String := "\x1b[97m"

/-! ## Bright background colors 100-107 -/

def BRIGHT_BLACK_BG : String := "\x1b[100m"

def BRIGHT_RED_BG : String := "\x1b[101m"

def BRIGHT_GREEN_BG : String := "\x1b[102m"

def BRIGHT_YELLOW_BG : String := "\x1b[103m"

def BRIGHT_BLUE_BG : String := "\x1b[104m"

def BRIGHT_MAGENTA_BG : String := "\x1b[105m"

def BRIGHT_CYAN_BG : String := "\x1b[106m"

def BRIGHT_WHITE_BG : String := "\x1b[107m"

/-- The full catalogue of the crate's named constants, each paired with its
Rust-level name (all 72 `pub const` items of lib.rs). -/
def catalogueNamed : List (String × String) :=
  [("RESET", RESET), ("BOLD", BOLD), ("DIM", DIM), ("ITALIC", ITALIC),
   ("UNDERLINE", UNDERLINE), ("SLOW_BLINK", SLOW_BLINK),
   ("RAPID_BLINK", RAPID_BLINK), ("INVERTED", INVERTED), ("HIDDEN", HIDDEN),
   ("STRIKETHROUGH", STRIKETHROUGH), ("DEFAULT_FONT", DEFAULT_FONT),
   ("ALT_FONT_1", ALT_FONT_1), ("ALT_FONT_2", ALT_FONT_2),
   ("ALT_FONT_3", ALT_FONT_3), ("ALT_FONT_4", ALT_FONT_4),
   ("ALT_FONT_5", ALT_FONT_5), ("ALT_FONT_6", ALT_FONT_6),
   ("ALT_FONT_7", ALT_FONT_7), ("ALT_FONT_8", ALT_FONT_8),
   ("ALT_FONT_9", ALT_FONT_9), ("FRAKTUR", FRAKTUR),
   ("DOUBLE_UNDERLINE", DOUBLE_UNDERLINE), ("NOT_BOLD", NOT_BOLD),
   ("NORMAL_INTENSITY", NORMAL_INTENSITY),
   ("NEITHER_BOLD_NOR_ITALIC", NEITHER_BOLD_NOR_ITALIC),
   ("NOT_UNDERLINED", NOT_UNDERLINED), ("NOT_BLINKING", NOT_BLINKING),
   ("PROPORTIONAL_SPACING", PROPORTIONAL_SPACING),
   ("NOT_INVERTED", NOT_INVERTED), ("NOT_HIDDEN", NOT_HIDDEN),
   ("NOT_STRIKETHROUGH", NOT_STRIKETHROUGH),
   ("BLACK", BLACK), ("RED", RED), ("GREEN", GREEN), ("YELLOW", YELLOW),
   ("BLUE", BLUE), ("MAGENTA", MAGENTA), ("CYAN", CYAN), ("WHITE", WHITE),
   ("DEFAULT", DEFAULT),
   ("BLACK_BG", BLACK_BG), ("RED_BG", RED_BG), ("GREEN_BG", GREEN_BG),
   ("YELLOW_BG", YELLOW_BG), ("BLUE_BG", BLUE_BG),
   ("MAGENTA_BG", MAGENTA_BG), ("CYAN_BG", CYAN_BG), ("WHITE_BG", WHITE_BG),
   ("DEFAULT_BG", DEFAULT_BG),
   ("NO_PROPORTIONAL_SPACING", NO_PROPORTIONAL_SPACING),
   ("FRAMED", FRAMED), ("ENCIRCLED", ENCIRCLED), ("OVERLINE", OVERLINE),
   ("NEITHER_FRAMED_NOR_ENCIRCLED", NEITHER_FRAMED_NOR_ENCIRCLED),
   ("NOT_OVERLINED", NOT_OVERLINED),
   ("BRIGHT_BLACK", BRIGHT_BLACK), ("BRIGHT_RED", BRIGHT_RED),
   ("BRIGHT_GREEN", BRIGHT_GREEN), ("BRIGHT_YELLOW", BRIGHT_YELLOW),
   ("BRIGHT_BLUE", BRIGHT_BLUE), ("BRIGHT_MAGENTA", BRIGHT_MAGENTA),
   ("BRIGHT_CYAN", BRIGHT_CYAN), ("BRIGHT_WHITE", BRIGHT_WHITE),
   ("BRIGHT_BLACK_BG", BRIGHT_BLACK_BG), ("BRIGHT_RED_BG", BRIGHT_RED_BG),
   ("BRIGHT_GREEN_BG", BRIGHT_GREEN_BG),
   ("BRIGHT_YELLOW_BG", BRIGHT_YELLOW_BG),
   ("BRIGHT_BLUE_BG", BRIGHT_BLUE_BG),
   ("BRIGHT_MAGENTA_BG", BRIGHT_MAGENTA_BG),
   ("BRIGHT_CYAN_BG", BRIGHT_CYAN_BG), ("BRIGHT_WHITE_BG", BRIGHT_WHITE_BG)]

/-- The catalogue's string values, in source order. -/
def catalogueValues : List String :=
  catalogueNamed.map Prod.snd

/-! ## Analysis vocabulary (spec-side characterizations) -/

/-- The numeric value denoted by a list of decimal digit characters. -/
def decValue (cs : List Char) : Nat :=
  cs.foldl (fun a c => 10 * a + (c.toNat - 48)) 0

/-- `cs` is a non-empty run of ASCII digits with no leading zero
(a single `'0'` is allowed). -/
def isDecimalNoLeadingZeros (cs : List Char) : Bool :=
  (!cs.isEmpty) && cs.all Char.isDigit &&
    (cs.length == 1 || cs.head? != some '0')

/-- Checker for the part of an SGR sequence after `ESC [`: accepts exactly the
strings of the form `digits (';' digits)* 'm'` with every digit run non-empty
(the flag records whether the current run has seen at least one digit). -/
def midOK (seen : Bool) : List Char → Bool
  | [] => false
  | [c] => seen && decide (c = 'm')
  | c :: rest =>
    if c = ';' then seen && midOK false rest
    else Char.isDigit c && midOK true rest

/-- `s` matches the pattern `ESC '[' digits (';' digits)* 'm'`. -/
def isWellFormedSGR (s : String) : Bool :=
  match s.data with
  | '\x1b' :: '[' :: rest => midOK false rest
  | _ => false

/-- Split a character list at every `';'` (the fields of an SGR parameter
list). -/
def splitSemis : List Char → List (List Char)
  | [] => [[]]
  | c :: rest =>
    if c = ';' then [] :: splitSemis rest
    else (c :: (splitSemis rest).headI) :: (splitSemis rest).tail

/-- The numeric SGR parameters carried by an escape sequence: strip `ESC [`
and the final byte, split the rest at `';'`, read each field as decimal. -/
def sgrParams (s : String) : List Nat :=
  match s.data with
  | '\x1b' :: '[' :: rest => (splitSemis rest.dropLast).map decValue
  | _ => []

/-- Well-formedness of an escape sequence spelled out: non-empty, starts with
`ESC [`, ends with `'m'`, and matches the full digit-run pattern. -/
def goodSGR (s : String) : Prop :=
  s.data ≠ [] ∧ s.data.take 2 = ['\x1b', '['] ∧ s.data.getLast? = some 'm' ∧
    isWellFormedSGR s = true

/-! ## Facts about the decimal rendering of byte values -/

set_option maxRecDepth 40000 in
/-- For every byte value, `Nat.repr` (the decimal rendering used by Rust's
`format!` for `u8`) yields a non-empty, semicolon-free digit string without
leading zeros that denotes the value itself. -/
theorem repr_byte_facts : ∀ n : Nat, n ≤ 255 →
    (Nat.repr n).data ≠ [] ∧
    (Nat.repr n).data.all Char.isDigit = true ∧
    ';' ∉ (Nat.repr n).data ∧
    decValue (Nat.repr n).data = n ∧
    isDecimalNoLeadingZeros (Nat.repr n).data = true := by decide

theorem ne_semi_of_isDigit (c : Char) (hc : c.isDigit = true) : ¬(c = ';') := by
  intro h
  subst h
  exact absurd hc (by decide)

/-! ## Properties of the SGR body checker `midOK` -/

theorem midOK_cons (seen : Bool) (c : Char) (l : List Char) (hl : l ≠ []) :
    midOK seen (c :: l) =
      if c = ';' then seen && midOK false l
      else Char.isDigit c && midOK true l := by
  cases l with
  | nil => exact absurd rfl hl
  | cons d t => rfl

theorem midOK_digits_append (a : List Char) (ha : a.all Char.isDigit = true)
    (seen : Bool) (r : List Char) (hr : r ≠ []) :
    midOK seen (a ++ r) = midOK (seen || !a.isEmpty) r := by
  induction a generalizing seen with
  | nil => simp
  | cons c a ih =>
    simp only [List.all_cons, Bool.and_eq_true] at ha
    rw [List.cons_append, midOK_cons _ c _ (by simp [hr]),
      if_neg (ne_semi_of_isDigit c ha.1), ha.1, ih ha.2 true, Bool.true_and]
    simp

theorem midOK_run_sep (a : List Char) (hne : a ≠ [])
    (ha : a.all Char.isDigit = true) (r : List Char) (hr : r ≠ []) :
    midOK false (a ++ ';' :: r) = midOK false r := by
  have hae : a.isEmpty = false := by
    cases a with
    | nil => exact absurd rfl hne
    | cons c t => rfl
  rw [midOK_digits_append a ha false (';' :: r) (by simp), hae,
    midOK_cons _ ';' r hr, if_pos rfl]
  simp

theorem midOK_run_m (a : List Char) (hne : a ≠ [])
    (ha : a.all Char.isDigit = true) :
    midOK false (a ++ ['m']) = true := by
  have hae : a.isEmpty = false := by
    cases a with
    | nil => exact absurd rfl hne
    | cons c t => rfl
  rw [midOK_digits_append a ha false ['m'] (by simp), hae]
  rfl

theorem midOK_last (seen : Bool) (l : List Char) (h : midOK seen l = true) :
    l.getLast? = some 'm' := by
  induction l generalizing seen with
  | nil => exact absurd h (by simp [midOK])
  | cons c t ih =>
    cases t with
    | nil =>
      simp only [midOK, Bool.and_eq_true, decide_eq_true_eq] at h
      simp [h.2]
    | cons d t2 =>
      rw [midOK_cons seen c (d :: t2) (by simp)] at h
      rw [List.getLast?_cons_cons]
      by_cases hc : c = ';'
      · rw [if_pos hc, Bool.and_eq_true] at h
        exact ih false h.2
      · rw [if_neg hc, Bool.and_eq_true] at h
        exact ih true h.2

theorem wf_shape (s : String) (h : isWellFormedSGR s = true) : goodSGR s := by
  have h0 := h
  unfold isWellFormedSGR at h
  split at h
  next rest heq =>
    have hne : rest ≠ [] := by
      intro hn
      subst hn
      exact absurd h (by simp [midOK])
    refine ⟨by simp [heq], by simp [heq], ?_, h0⟩
    · rw [heq, List.getLast?_cons_cons]
      cases rest with
      | nil => exact absurd rfl hne
      | cons d t =>
        rw [List.getLast?_cons_cons]
        exact midOK_last false (d :: t) h
  next => simp at h

/-! ## Properties of `splitSemis` -/

theorem splitSemis_no_semi (a : List Char) (ha : ';' ∉ a) : splitSemis a = [a] := by
  induction a with
  | nil => rfl
  | cons c t ih =>
    have hc : ¬(c = ';') := fun h => ha (List.mem_cons.mpr (Or.inl h.symm))
    simp only [splitSemis, if_neg hc,
      ih (fun hm => ha (List.mem_cons_of_mem c hm))]
    rfl

theorem splitSemis_sep (a : List Char) (ha : ';' ∉ a) (r : List Char) :
    splitSemis (a ++ ';' :: r) = a :: splitSemis r := by
  induction a with
  | nil => simp [splitSemis]
  | cons c t ih =>
    have hc : ¬(c = ';') := fun h => ha (List.mem_cons.mpr (Or.inl h.symm))
    rw [List.cons_append]
    simp only [splitSemis, if_neg hc,
      ih (fun hm => ha (List.mem_cons_of_mem c hm))]
    rfl

/-! ## The character data produced by the four formatters -/

theorem color_256_data (n : Nat) :
    (color_256 n).data =
      '\x1b' :: '[' :: '3' :: '8' :: ';' :: '5' :: ';' ::
        ((Nat.repr n).data ++ ['m']) := rfl

theorem color_256_bg_data (n : Nat) :
    (color_256_bg n).data =
      '\x1b' :: '[' :: '4' :: '8' :: ';' :: '5' :: ';' ::
        ((Nat.repr n).data ++ ['m']) := rfl

theorem truecolor_data (r g b : Nat) :
    (truecolor r g b).data =
      '\x1b' :: '[' :: '3' :: '8' :: ';' :: '2' :: ';' ::
        ((Nat.repr r).data ++ ';' :: ((Nat.repr g).data ++ ';' ::
          ((Nat.repr b).data ++ ['m']))) := by
  simp only [truecolor, String.data_append, List.append_assoc]
  rfl

theorem truecolor_bg_data (r g b : Nat) :
    (truecolor_bg r g b).data =
      '\x1b' :: '[' :: '4' :: '8' :: ';' :: '2' :: ';' ::
        ((Nat.repr r).data ++ ';' :: ((Nat.repr g).data ++ ';' ::
          ((Nat.repr b).data ++ ['m']))) := by
  simp only [truecolor_bg, String.data_append, List.append_assoc]
  rfl

/-! ## Well-formedness of the formatters' output -/

theorem color_256_wf (n : Nat) (h : n ≤ 255) :
    isWellFormedSGR (color_256 n) = true := by
  obtain ⟨hne, hdig, hnot, hval, hnlz⟩ := repr_byte_facts n h
  unfold isWellFormedSGR
  rw [color_256_data n]
  show midOK false
    (['3', '8'] ++ ';' :: (['5'] ++ ';' :: ((Nat.repr n).data ++ ['m']))) = true
  rw [midOK_run_sep ['3', '8'] (by simp) (by decide) _ (by simp),
    midOK_run_sep ['5'] (by simp) (by decide) _ (by simp)]
  exact midOK_run_m _ hne hdig

theorem color_256_bg_wf (n : Nat) (h : n ≤ 255) :
    isWellFormedSGR (color_256_bg n) = true := by
  obtain ⟨hne, hdig, hnot, hval, hnlz⟩ := repr_byte_facts n h
  unfold isWellFormedSGR
  rw [color_256_bg_data n]
  show midOK false
    (['4', '8'] ++ ';' :: (['5'] ++ ';' :: ((Nat.repr n).data ++ ['m']))) = true
  rw [midOK_run_sep ['4', '8'] (by simp) (by decide) _ (by simp),
    midOK_run_sep ['5'] (by simp) (by decide) _ (by simp)]
  exact midOK_run_m _ hne hdig

theorem truecolor_wf (r g b : Nat) (hr : r ≤ 255) (hg : g ≤ 255)
    (hb : b ≤ 255) : isWellFormedSGR (truecolor r g b) = true := by
  obtain ⟨hrne, hrdig, _, _, _⟩ := repr_byte_facts r hr
  obtain ⟨hgne, hgdig, _, _, _⟩ := repr_byte_facts g hg
  obtain ⟨hbne, hbdig, _, _, _⟩ := repr_byte_facts b hb
  unfold isWellFormedSGR
  rw [truecolor_data r g b]
  show midOK false
    (['3', '8'] ++ ';' :: (['2'] ++ ';' :: ((Nat.repr r).data ++ ';' ::
      ((Nat.repr g).data ++ ';' :: ((Nat.repr b).data ++ ['m']))))) = true
  rw [midOK_run_sep ['3', '8'] (by simp) (by decide) _ (by simp),
    midOK_run_sep ['2'] (by simp) (by decide) _ (by simp [hrne]),
    midOK_run_sep _ hrne hrdig _ (by simp [hgne]),
    midOK_run_sep _ hgne hgdig _ (by simp [hbne])]
  exact midOK_run_m _ hbne hbdig

theorem truecolor_bg_wf (r g b : Nat) (hr : r ≤ 255) (hg : g ≤ 255)
    (hb : b ≤ 255) : isWellFormedSGR (truecolor_bg r g b) = true := by
  obtain ⟨hrne, hrdig, _, _, _⟩ := repr_byte_facts r hr
  obtain ⟨hgne, hgdig, _, _, _⟩ := repr_byte_facts g hg
  obtain ⟨hbne, hbdig, _, _, _⟩ := repr_byte_facts b hb
  unfold isWellFormedSGR
  rw [truecolor_bg_data r g b]
  show midOK false
    (['4', '8'] ++ ';' :: (['2'] ++ ';' :: ((Nat.repr r).data ++ ';' ::
      ((Nat.repr g).data ++ ';' :: ((Nat.repr b).data ++ ['m']))))) = true
  rw [midOK_run_sep ['4', '8'] (by simp) (by decide) _ (by simp),
    midOK_run_sep ['2'] (by simp) (by decide) _ (by simp [hrne]),
    midOK_run_sep _ hrne hrdig _ (by simp [hgne]),
    midOK_run_sep _ hgne hgdig _ (by simp [hbne])]
  exact midOK_run_m _ hbne hbdig

/-! ## The numeric parameters carried by each formatter's output -/

theorem sgrParams_color_256 (n : Nat) (h : n ≤ 255) :
    sgrParams (color_256 n) = [38, 5, n] := by
  obtain ⟨hne, hdig, hnot, hval, hnlz⟩ := repr_byte_facts n h
  unfold sgrParams
  rw [color_256_data n]
  show (splitSemis ((('3' :: '8' :: ';' :: '5' :: ';' :: (Nat.repr n).data) ++
    ['m']).dropLast)).map decValue = [38, 5, n]
  rw [List.dropLast_concat]
  show (splitSemis (['3', '8'] ++ ';' :: (['5'] ++ ';' ::
    (Nat.repr n).data))).map decValue = [38, 5, n]
  rw [splitSemis_sep ['3', '8'] (by decide), splitSemis_sep ['5'] (by decide),
    splitSemis_no_semi _ hnot]
  show [decValue ['3', '8'], decValue ['5'], decValue (Nat.repr n).data] =
    [38, 5, n]
  rw [hval]
  rfl

theorem sgrParams_color_256_bg (n : Nat) (h : n ≤ 255) :
    sgrParams (color_256_bg n) = [48, 5, n] := by
  obtain ⟨hne, hdig, hnot, hval, hnlz⟩ := repr_byte_facts n h
  unfold sgrParams
  rw [color_256_bg_data n]
  show (splitSemis ((('4' :: '8' :: ';' :: '5' :: ';' :: (Nat.repr n).data) ++
    ['m']).dropLast)).map decValue = [48, 5, n]
  rw [List.dropLast_concat]
  show (splitSemis (['4', '8'] ++ ';' :: (['5'] ++ ';' ::
    (Nat.repr n).data))).map decValue = [48, 5, n]
  rw [splitSemis_sep ['4', '8'] (by decide), splitSemis_sep ['5'] (by decide),
    splitSemis_no_semi _ hnot]
  show [decValue ['4', '8'], decValue ['5'], decValue (Nat.repr n).data] =
    [48, 5, n]
  rw [hval]
  rfl

theorem sgrParams_truecolor (r g b : Nat) (hr : r ≤ 255) (hg : g ≤ 255)
    (hb : b ≤ 255) : sgrParams (truecolor r g b) = [38, 2, r, g, b] := by
  obtain ⟨_, _, hrnot, hrval, _⟩ := repr_byte_facts r hr
  obtain ⟨_, _, hgnot, hgval, _⟩ := repr_byte_facts g hg
  obtain ⟨_, _, hbnot, hbval, _⟩ := repr_byte_facts b hb
  unfold sgrParams
  rw [truecolor_data r g b]
  show (splitSemis (('3' :: '8' :: ';' :: '2' :: ';' ::
    ((Nat.repr r).data ++ ';' :: ((Nat.repr g).data ++ ';' ::
      ((Nat.repr b).data ++ ['m'])))).dropLast)).map decValue = [38, 2, r, g, b]
  have hrest : '3' :: '8' :: ';' :: '2' :: ';' ::
      ((Nat.repr r).data ++ ';' :: ((Nat.repr g).data ++ ';' ::
        ((Nat.repr b).data ++ ['m']))) =
      ('3' :: '8' :: ';' :: '2' :: ';' ::
        ((Nat.repr r).data ++ ';' :: ((Nat.repr g).data ++ ';' ::
          (Nat.repr b).data))) ++ ['m'] := by
    simp [List.append_assoc]
  rw [hrest, List.dropLast_concat]
  show (splitSemis (['3', '8'] ++ ';' :: (['2'] ++ ';' ::
    ((Nat.repr r).data ++ ';' :: ((Nat.repr g).data ++ ';' ::
      (Nat.repr b).data))))).map decValue = [38, 2, r, g, b]
  rw [splitSemis_sep ['3', '8'] (by decide), splitSemis_sep ['2'] (by decide),
    splitSemis_sep _ hrnot, splitSemis_sep _ hgnot,
    splitSemis_no_semi _ hbnot]
  show [decValue ['3', '8'], decValue ['2'], decValue (Nat.repr r).data,
    decValue (Nat.repr g).data, decValue (Nat.repr b).data] = [38, 2, r, g, b]
  rw [hrval, hgval, hbval]
  rfl

theorem sgrParams_truecolor_bg (r g b : Nat) (hr : r ≤ 255) (hg : g ≤ 255)
    (hb : b ≤ 255) : sgrParams (truecolor_bg r g b) = [48, 2, r, g, b] := by
  obtain ⟨_, _, hrnot, hrval, _⟩ := repr_byte_facts r hr
  obtain ⟨_, _, hgnot, hgval, _⟩ := repr_byte_facts g hg
  obtain ⟨_, _, hbnot, hbval, _⟩ := repr_byte_facts b hb
  unfold sgrParams
  rw [truecolor_bg_data r g b]
  show (splitSemis (('4' :: '8' :: ';' :: '2' :: ';' ::
    ((Nat.repr r).data ++ ';' :: ((Nat.repr g).data ++ ';' ::
      ((Nat.repr b).data ++ ['m'])))).dropLast)).map decValue = [48, 2, r, g, b]
  have hrest : '4' :: '8' :: ';' :: '2' :: ';' ::
      ((Nat.repr r).data ++ ';' :: ((Nat.repr g).data ++ ';' ::
        ((Nat.repr b).data ++ ['m']))) =
      ('4' :: '8' :: ';' :: '2' :: ';' ::
        ((Nat.repr r).data ++ ';' :: ((Nat.repr g).data ++ ';' ::
          (Nat.repr b).data))) ++ ['m'] := by
    simp [List.append_assoc]
  rw [hrest, List.dropLast_concat]
  show (splitSemis (['4', '8'] ++ ';' :: (['2'] ++ ';' ::
    ((Nat.repr r).data ++ ';' :: ((Nat.repr g).data ++ ';' ::
      (Nat.repr b).data))))).map decValue = [48, 2, r, g, b]
  rw [splitSemis_sep ['4', '8'] (by decide), splitSemis_sep ['2'] (by decide),
    splitSemis_sep _ hrnot, splitSemis_sep _ hgnot,
    splitSemis_no_semi _ hbnot]
  show [decValue ['4', '8'], decValue ['2'], decValue (Nat.repr r).data,
    decValue (Nat.repr g).data, decValue (Nat.repr b).data] = [48, 2, r, g, b]
  rw [hrval, hgval, hbval]
  rfl

set_option maxRecDepth 40000 in
/-- Every catalogue constant carries exactly one SGR parameter field. -/
theorem catalogue_params_single :
    ∀ s ∈ catalogueValues, (sgrParams s).length = 1 := by decide

set_option maxRecDepth 40000 in
/-- Every catalogue constant matches the SGR pattern. -/
theorem catalogue_wf : ∀ s ∈ catalogueValues, isWellFormedSGR s = true := by
  decide

/-! ## Claim theorems -/

/-- Claim C1: for every `n` in `[0,255]`, `color_256 n` returns exactly
`"\x1b[38;5;" ++ d(n) ++ "m"`, where `d(n) = Nat.repr n` is the decimal
rendering of `n`: an all-digit string without leading zeros (and with no
separators, being all digits) whose decimal value is `n`. -/
theorem C1_color_256_exact (n : Nat) (h : n ≤ 255) :
    color_256 n = "\x1b[38;5;" ++ Nat.repr n ++ "m" ∧
    isDecimalNoLeadingZeros (Nat.repr n).data = true ∧
    decValue (Nat.repr n).data = n := by
  obtain ⟨-, -, -, hval, hnlz⟩ := repr_byte_facts n h
  exact ⟨rfl, hnlz, hval⟩

theorem C1_witness :
    color_256 232 = "\x1b[38;5;" ++ Nat.repr 232 ++ "m" ∧
    isDecimalNoLeadingZeros (Nat.repr 232).data = true ∧
    decValue (Nat.repr 232).data = 232 :=
  C1_color_256_exact 232 (by decide)

/-- Claim C2: for every `n` in `[0,255]`, `color_256_bg n` returns exactly
`"\x1b[48;5;" ++ d(n) ++ "m"` with `d(n) = Nat.repr n` the decimal rendering
of `n` without leading zeros. -/
theorem C2_color_256_bg_exact (n : Nat) (h : n ≤ 255) :
    color_256_bg n = "\x1b[48;5;" ++ Nat.repr n ++ "m" ∧
    isDecimalNoLeadingZeros (Nat.repr n).data = true ∧
    decValue (Nat.repr n).data = n := by
  obtain ⟨-, -, -, hval, hnlz⟩ := repr_byte_facts n h
  exact ⟨rfl, hnlz, hval⟩

theorem C2_witness :
    color_256_bg 214 = "\x1b[48;5;" ++ Nat.repr 214 ++ "m" ∧
    isDecimalNoLeadingZeros (Nat.repr 214).data = true ∧
    decValue (Nat.repr 214).data = 214 :=
  C2_color_256_bg_exact 214 (by decide)

/-- Claim C3: for every `(r,g,b)` in `[0,255]^3`, `truecolor r g b` returns
exactly `"\x1b[38;2;" ++ d(r) ++ ";" ++ d(g) ++ ";" ++ d(b) ++ "m"` and
`truecolor_bg r g b` returns exactly the `48;2` variant, each component
rendered in decimal without leading zeros (`d = Nat.repr`). -/
theorem C3_truecolor_exact (r g b : Nat) (hr : r ≤ 255) (hg : g ≤ 255)
    (hb : b ≤ 255) :
    truecolor r g b =
      "\x1b[38;2;" ++ Nat.repr r ++ ";" ++ Nat.repr g ++ ";" ++
        Nat.repr b ++ "m" ∧
    truecolor_bg r g b =
      "\x1b[48;2;" ++ Nat.repr r ++ ";" ++ Nat.repr g ++ ";" ++
        Nat.repr b ++ "m" ∧
    (isDecimalNoLeadingZeros (Nat.repr r).data = true ∧
      decValue (Nat.repr r).data = r) ∧
    (isDecimalNoLeadingZeros (Nat.repr g).data = true ∧
      decValue (Nat.repr g).data = g) ∧
    (isDecimalNoLeadingZeros (Nat.repr b).data = true ∧
      decValue (Nat.repr b).data = b) := by
  obtain ⟨-, -, -, hrval, hrnlz⟩ := repr_byte_facts r hr
  obtain ⟨-, -, -, hgval, hgnlz⟩ := repr_byte_facts g hg
  obtain ⟨-, -, -, hbval, hbnlz⟩ := repr_byte_facts b hb
  exact ⟨rfl, rfl, ⟨hrnlz, hrval⟩, ⟨hgnlz, hgval⟩, ⟨hbnlz, hbval⟩⟩

theorem C3_witness :
    truecolor 127 45 68 =
      "\x1b[38;2;" ++ Nat.repr 127 ++ ";" ++ Nat.repr 45 ++ ";" ++
        Nat.repr 68 ++ "m" ∧
    truecolor_bg 127 45 68 =
      "\x1b[48;2;" ++ Nat.repr 127 ++ ";" ++ Nat.repr 45 ++ ";" ++
        Nat.repr 68 ++ "m" ∧
    (isDecimalNoLeadingZeros (Nat.repr 127).data = true ∧
      decValue (Nat.repr 127).data = 127) ∧
    (isDecimalNoLeadingZeros (Nat.repr 45).data = true ∧
      decValue (Nat.repr 45).data = 45) ∧
    (isDecimalNoLeadingZeros (Nat.repr 68).data = true ∧
      decValue (Nat.repr 68).data = 68) :=
  C3_truecolor_exact 127 45 68 (by decide) (by decide) (by decide)

/-- Claim C4: every named constant of the catalogue, and every string
returned by `color_256`, `color_256_bg`, `truecolor`, `truecolor_bg` on any
input in the `u8` domain, is a non-empty string beginning with `ESC` `'['`,
ending in `'m'`, and matching `ESC '[' digits (';' digits)* 'm'`
(`goodSGR` spells out exactly these conditions); every value `0`-`255` maps
to a well-formed sequence, with no failure path. -/
theorem C4_all_wellformed :
    (∀ s ∈ catalogueValues, goodSGR s) ∧
    (∀ n : Nat, n ≤ 255 → goodSGR (color_256 n) ∧ goodSGR (color_256_bg n)) ∧
    (∀ r g b : Nat, r ≤ 255 → g ≤ 255 → b ≤ 255 →
      goodSGR (truecolor r g b) ∧ goodSGR (truecolor_bg r g b)) := by
  refine ⟨fun s hs => wf_shape s (catalogue_wf s hs),
    fun n h => ⟨wf_shape _ (color_256_wf n h),
      wf_shape _ (color_256_bg_wf n h)⟩,
    fun r g b hr hg hb => ⟨wf_shape _ (truecolor_wf r g b hr hg hb),
      wf_shape _ (truecolor_bg_wf r g b hr hg hb)⟩⟩

theorem C4_witness :
    goodSGR RESET ∧ goodSGR (color_256 0) ∧ goodSGR (truecolor 127 45 68) :=
  ⟨C4_all_wellformed.1 RESET (by decide),
   (C4_all_wellformed.2.1 0 (by decide)).1,
   (C4_all_wellformed.2.2 127 45 68 (by decide) (by decide) (by decide)).1⟩

set_option maxRecDepth 100000 in
/-- Claim C5: no two catalogue constants that denote logically distinct codes
share a string value, with exactly one exception: `DOUBLE_UNDERLINE` and
`NOT_BOLD` (both SGR parameter 21) are bound to the identical literal
`"\x1b[21m"`. Formally: any two catalogue entries with equal values are the
same entry or the documented 21m pair. -/
theorem C5_unique_values :
    DOUBLE_UNDERLINE = NOT_BOLD ∧ DOUBLE_UNDERLINE = "\x1b[21m" ∧
    ∀ p ∈ catalogueNamed, ∀ q ∈ catalogueNamed, p.2 = q.2 →
      p.1 = q.1 ∨ (p.1 = "DOUBLE_UNDERLINE" ∧ q.1 = "NOT_BOLD") ∨
        (p.1 = "NOT_BOLD" ∧ q.1 = "DOUBLE_UNDERLINE") :=
  ⟨rfl, rfl, by decide⟩

theorem C5_witness :
    ("DOUBLE_UNDERLINE", DOUBLE_UNDERLINE).1 = ("NOT_BOLD", NOT_BOLD).1 ∨
      (("DOUBLE_UNDERLINE", DOUBLE_UNDERLINE).1 = "DOUBLE_UNDERLINE" ∧
        ("NOT_BOLD", NOT_BOLD).1 = "NOT_BOLD") ∨
      (("DOUBLE_UNDERLINE", DOUBLE_UNDERLINE).1 = "NOT_BOLD" ∧
        ("NOT_BOLD", NOT_BOLD).1 = "DOUBLE_UNDERLINE") :=
  C5_unique_values.2.2 ("DOUBLE_UNDERLINE", DOUBLE_UNDERLINE) (by decide)
    ("NOT_BOLD", NOT_BOLD) (by decide) rfl

/-- Claim C6: the bright foreground constants carry SGR parameters 90-97, the
bright background constants 100-107, the default foreground constant 39, and
the default background constant 49, via exactly these literals. -/
theorem C6_color_parameters :
    BRIGHT_BLACK = "\x1b[90m" ∧ BRIGHT_RED = "\x1b[91m" ∧
    BRIGHT_GREEN = "\x1b[92m" ∧ BRIGHT_YELLOW = "\x1b[93m" ∧
    BRIGHT_BLUE = "\x1b[94m" ∧ BRIGHT_MAGENTA = "\x1b[95m" ∧
    BRIGHT_CYAN = "\x1b[96m" ∧ BRIGHT_WHITE = "\x1b[97m" ∧
    BRIGHT_BLACK_BG = "\x1b[100m" ∧ BRIGHT_RED_BG = "\x1b[101m" ∧
    BRIGHT_GREEN_BG = "\x1b[102m" ∧ BRIGHT_YELLOW_BG = "\x1b[103m" ∧
    BRIGHT_BLUE_BG = "\x1b[104m" ∧ BRIGHT_MAGENTA_BG = "\x1b[105m" ∧
    BRIGHT_CYAN_BG = "\x1b[106m" ∧ BRIGHT_WHITE_BG = "\x1b[107m" ∧
    DEFAULT = "\x1b[39m" ∧ DEFAULT_BG = "\x1b[49m" :=
  ⟨rfl, rfl, rfl, rfl, rfl, rfl, rfl, rfl, rfl, rfl, rfl, rfl, rfl, rfl,
   rfl, rfl, rfl, rfl⟩

/-- Claim C7: the five concrete input/output scenarios hold exactly. -/
theorem C7_concrete_scenarios :
    color_256 232 = "\x1b[38;5;232m" ∧
    truecolor_bg 0 255 255 = "\x1b[48;2;0;255;255m" ∧
    BOLD = "\x1b[1m" ∧ RESET = "\x1b[0m" ∧ BRIGHT_CYAN_BG = "\x1b[106m" :=
  ⟨by decide, by decide, rfl, rfl, rfl⟩

/-- Claim C8: each formatting function is deterministic and referentially
transparent: identical inputs yield identical output strings. (In this pure
embedding of the Rust functions, the output is a function of the arguments
alone, so there is no state any call could read or mutate.) -/
theorem C8_referential_transparency :
    (∀ n₁ n₂ : Nat, n₁ = n₂ → color_256 n₁ = color_256 n₂) ∧
    (∀ n₁ n₂ : Nat, n₁ = n₂ → color_256_bg n₁ = color_256_bg n₂) ∧
    (∀ r₁ g₁ b₁ r₂ g₂ b₂ : Nat, r₁ = r₂ → g₁ = g₂ → b₁ = b₂ →
      truecolor r₁ g₁ b₁ = truecolor r₂ g₂ b₂) ∧
    (∀ r₁ g₁ b₁ r₂ g₂ b₂ : Nat, r₁ = r₂ → g₁ = g₂ → b₁ = b₂ →
      truecolor_bg r₁ g₁ b₁ = truecolor_bg r₂ g₂ b₂) :=
  ⟨fun n₁ n₂ h => by rw [h], fun n₁ n₂ h => by rw [h],
   fun r₁ g₁ b₁ r₂ g₂ b₂ h1 h2 h3 => by rw [h1, h2, h3],
   fun r₁ g₁ b₁ r₂ g₂ b₂ h1 h2 h3 => by rw [h1, h2, h3]⟩

theorem C8_witness :
    color_256 237 = color_256 237 ∧ truecolor 0 255 255 = truecolor 0 255 255 :=
  ⟨C8_referential_transparency.1 237 237 rfl,
   C8_referential_transparency.2.2.1 0 255 255 0 255 255 rfl rfl rfl⟩

/-- Claim C9: each formatting function is injective on its `u8` domain: equal
output strings force equal inputs, for `color_256`, `color_256_bg`,
`truecolor`, and `truecolor_bg`. -/
theorem C9_injective :
    (∀ m n : Nat, m ≤ 255 → n ≤ 255 → color_256 m = color_256 n → m = n) ∧
    (∀ m n : Nat, m ≤ 255 → n ≤ 255 →
      color_256_bg m = color_256_bg n → m = n) ∧
    (∀ r₁ g₁ b₁ r₂ g₂ b₂ : Nat, r₁ ≤ 255 → g₁ ≤ 255 → b₁ ≤ 255 →
      r₂ ≤ 255 → g₂ ≤ 255 → b₂ ≤ 255 →
      truecolor r₁ g₁ b₁ = truecolor r₂ g₂ b₂ →
      r₁ = r₂ ∧ g₁ = g₂ ∧ b₁ = b₂) ∧
    (∀ r₁ g₁ b₁ r₂ g₂ b₂ : Nat, r₁ ≤ 255 → g₁ ≤ 255 → b₁ ≤ 255 →
      r₂ ≤ 255 → g₂ ≤ 255 → b₂ ≤ 255 →
      truecolor_bg r₁ g₁ b₁ = truecolor_bg r₂ g₂ b₂ →
      r₁ = r₂ ∧ g₁ = g₂ ∧ b₁ = b₂) := by
  refine ⟨?_, ?_, ?_, ?_⟩
  · intro m n hm hn heq
    have h2 := congrArg sgrParams heq
    rw [sgrParams_color_256 m hm, sgrParams_color_256 n hn] at h2
    simpa using h2
  · intro m n hm hn heq
    have h2 := congrArg sgrParams heq
    rw [sgrParams_color_256_bg m hm, sgrParams_color_256_bg n hn] at h2
    simpa using h2
  · intro r₁ g₁ b₁ r₂ g₂ b₂ hr₁ hg₁ hb₁ hr₂ hg₂ hb₂ heq
    have h2 := congrArg sgrParams heq
    rw [sgrParams_truecolor r₁ g₁ b₁ hr₁ hg₁ hb₁,
      sgrParams_truecolor r₂ g₂ b₂ hr₂ hg₂ hb₂] at h2
    simpa using h2
  · intro r₁ g₁ b₁ r₂ g₂ b₂ hr₁ hg₁ hb₁ hr₂ hg₂ hb₂ heq
    have h2 := congrArg sgrParams heq
    rw [sgrParams_truecolor_bg r₁ g₁ b₁ hr₁ hg₁ hb₁,
      sgrParams_truecolor_bg r₂ g₂ b₂ hr₂ hg₂ hb₂] at h2
    simpa using h2

theorem C9_witness : (3 : Nat) = 3 ∧ ((0 : Nat) = 0 ∧ (255 : Nat) = 255 ∧
    (255 : Nat) = 255) :=
  ⟨C9_injective.1 3 3 (by decide) (by decide) rfl,
   C9_injective.2.2.1 0 255 255 0 255 255 (by decide) (by decide) (by decide)
     (by decide) (by decide) (by decide) rfl⟩

/-- Claim C10: the foreground and background formatters never collide (the
38-versus-48 discriminant keeps their output sets disjoint), and no output of
any of the four formatters equals any named constant of the catalogue. -/
theorem C10_disjoint :
    (∀ m n : Nat, m ≤ 255 → n ≤ 255 → color_256 m ≠ color_256_bg n) ∧
    (∀ r₁ g₁ b₁ r₂ g₂ b₂ : Nat, r₁ ≤ 255 → g₁ ≤ 255 → b₁ ≤ 255 →
      r₂ ≤ 255 → g₂ ≤ 255 → b₂ ≤ 255 →
      truecolor r₁ g₁ b₁ ≠ truecolor_bg r₂ g₂ b₂) ∧
    (∀ n : Nat, n ≤ 255 → ∀ s ∈ catalogueValues,
      color_256 n ≠ s ∧ color_256_bg n ≠ s) ∧
    (∀ r g b : Nat, r ≤ 255 → g ≤ 255 → b ≤ 255 → ∀ s ∈ catalogueValues,
      truecolor r g b ≠ s ∧ truecolor_bg r g b ≠ s) := by
  refine ⟨?_, ?_, ?_, ?_⟩
  · intro m n hm hn heq
    have h2 := congrArg sgrParams heq
    rw [sgrParams_color_256 m hm, sgrParams_color_256_bg n hn] at h2
    simp at h2
  · intro r₁ g₁ b₁ r₂ g₂ b₂ hr₁ hg₁ hb₁ hr₂ hg₂ hb₂ heq
    have h2 := congrArg sgrParams heq
    rw [sgrParams_truecolor r₁ g₁ b₁ hr₁ hg₁ hb₁,
      sgrParams_truecolor_bg r₂ g₂ b₂ hr₂ hg₂ hb₂] at h2
    simp at h2
  · intro n hn s hs
    have hlen := catalogue_params_single s hs
    constructor
    · intro heq
      rw [← heq, sgrParams_color_256 n hn] at hlen
      simp at hlen
    · intro heq
      rw [← heq, sgrParams_color_256_bg n hn] at hlen
      simp at hlen
  · intro r g b hr hg hb s hs
    have hlen := catalogue_params_single s hs
    constructor
    · intro heq
      rw [← heq, sgrParams_truecolor r g b hr hg hb] at hlen
      simp at hlen
    · intro heq
      rw [← heq, sgrParams_truecolor_bg r g b hr hg hb] at hlen
      simp at hlen

theorem C10_witness :
    color_256 0 ≠ color_256_bg 0 ∧
    (color_256 0 ≠ RESET ∧ color_256_bg 0 ≠ RESET) :=
  ⟨C10_disjoint.1 0 0 (by decide) (by decide),
   C10_disjoint.2.2.1 0 (by decide) RESET (by decide)⟩

end FlowerPot
